import Mathlib

/-!
Shallow embedding of the ElastiCache auth-token rotator
(`src/rotator/rotator.py`) and the connection-info attacher
(`src/attacher/attacher.py`).

The Secrets Manager store, the ElastiCache control plane and the redis
data plane are external collaborators; they are modelled as explicit
state (`Store`) and an oracle (`World`), following the contracts the
code relies on (fetch by stage or version, create a version with a
stage, move a stage label, generate a random password, ping a node).
Every mutating or cluster-facing call the code issues is recorded in an
`Effect` trace, so that theorems can speak about which external calls an
invocation performs.
-/

/-- Errors surfaced by the embedded code.  `resourceNotFound` is the
store's ResourceNotFoundException, `paramValidation` is the SDK-side
rejection of an argument that is not a valid string identifier,
`valueError` / `keyError` / `typeError` mirror the Python exceptions. -/
inductive Err where
  | resourceNotFound : Err
  | clusterNotFound : Err
  | paramValidation : Err
  | valueError : String → Err
  | keyError : String → Err
  | typeError : Err

/-- JSON values, as produced by parsing a secret payload. -/
inductive Json where
  | str : String → Json
  | bool : Bool → Json
  | num : Int → Json
  | null : Json
  | arr : List Json → Json
  | obj : List (String × Json) → Json

namespace Json

/-- Python `key in d` for a parsed JSON value: key membership when the
value is an object.  (A non-object has no keys.) -/
def hasKey : Json → String → Bool
  | .obj fs, k => fs.any (fun kv => kv.1 = k)
  | _, _ => false

/-- Python `d[k]`: field lookup, `KeyError` when the key is absent,
`TypeError` when the value is not an object. -/
def index : Json → String → Except Err Json
  | .obj fs, k =>
      match fs.find? (fun kv => kv.1 = k) with
      | some kv => .ok kv.2
      | none => .error (.keyError k)
  | _, _ => .error .typeError

/-- Python `d[k] = v` on a dict: replace the value in place when the key
exists, append otherwise.  Only ever applied to objects in the source
(the record was validated first); on a non-object it is the identity. -/
def setKey : Json → String → Json → Json
  | .obj fs, k, v =>
      if fs.any (fun kv => kv.1 = k) then
        .obj (fs.map (fun kv => if kv.1 = k then (k, v) else kv))
      else
        .obj (fs ++ [(k, v)])
  | j, _, _ => j

end Json

/-- One stored version of a secret: its store-assigned id (the client
request token), its stage labels, and its payload.  `secretString` is
`none` when the stored string is not valid JSON. -/
structure Version where
  id : String
  stages : List String
  secretString : Option Json

/-- One logical secret: its rotation flag as reported by
describe-secret (`none` = the key is absent from the response) and its
versions, in the order the stage map lists them. -/
structure SecretData where
  rotationEnabled : Option Bool
  versions : List Version

/-- The secret store: secrets keyed by ARN / identifier. -/
structure Store where
  secrets : List (String × SecretData)

def Store.findSecret (st : Store) (sid : String) : Option SecretData :=
  (st.secrets.find? (fun s => s.1 = sid)).map (fun s => s.2)

/-- The value passed as `SecretId` to a store call.  The attacher
mistakenly passes the store client object itself in one place, so the
argument is either a genuine string identifier or the client object. -/
inductive SMArg where
  | str : String → SMArg
  | client : SMArg

/-- An ElastiCache replication group as seen by describe:
one `(Address, Port)` primary endpoint per node group, plus the transit
encryption flag. -/
structure ReplicationGroup where
  nodeGroupPrimaryEndpoints : List (String × Nat)
  transitEncryptionEnabled : Bool

/-- External calls the code issues, recorded as a trace.  Pure store
reads (describe-secret, get-secret-value) are state lookups and are not
traced; everything that generates, mutates, or contacts the cluster
is. -/
inductive Effect where
  | getRandomPassword : Nat → String → Effect
  | putSecretValue : String → Option String → Json → List String → Effect
  | updateSecretVersionStage : String → String → String → Option String → Effect
  | ping : String → Effect
  | modifyReplicationGroup : Json → Json → String → Effect
  | describeReplicationGroups : Json → Effect

def Effect.isModify : Effect → Bool
  | .modifyReplicationGroup _ _ _ => true
  | _ => false

def Effect.isPing : Effect → Bool
  | .ping _ => true
  | _ => false

/-- The cluster-modification calls contained in a trace. -/
def modifyCalls (tr : List Effect) : List Effect :=
  tr.filter Effect.isModify

/-- The store-mutating calls contained in a trace. -/
def storeMutations (tr : List Effect) : List Effect :=
  tr.filter (fun e =>
    match e with
    | .putSecretValue _ _ _ _ => true
    | .updateSecretVersionStage _ _ _ _ => true
    | _ => false)

/-- The external world: the store's password generator, the data-plane
ping outcome for a `(host, port, connection-args)` triple, the cluster
control plane's view of replication groups, and how the asynchronous
auth-token modification behaves (whether the initial modify response
reports the change still pending, and how many status polls it takes to
clear — the source loops until the control plane reports the change
applied, so the world supplies that count). -/
structure World where
  genPassword : Nat → String → String
  ping : String → String → List (String × Json) → Bool
  replicationGroup : String → Option ReplicationGroup
  modifyPendingInitially : Bool
  pollsNeeded : Nat

/-- Python truthiness of the optional `token` argument (`if token:`):
`None` and the empty string are falsy. -/
def truthy : Option String → Bool
  | none => false
  | some s => !(s = "")

/-- `get_secret_value`: with a `VersionId` the version must exist and
carry the requested stage; with only a `VersionStage` the version
carrying that stage is returned.  A non-string `SecretId` (the client
object) is rejected by the SDK before any call is made. -/
def getSecretValue (st : Store) (sid : SMArg) (versionId : Option String)
    (stage : String) : Except Err Version :=
  match sid with
  | .client => .error .paramValidation
  | .str s =>
      match st.findSecret s with
      | none => .error .resourceNotFound
      | some sd =>
          match versionId with
          | some vid =>
              match sd.versions.find? (fun v => v.id = vid) with
              | some v =>
                  if stage ∈ v.stages then .ok v else .error .resourceNotFound
              | none => .error .resourceNotFound
          | none =>
              match sd.versions.find? (fun v => stage ∈ v.stages) with
              | some v => .ok v
              | none => .error .resourceNotFound

namespace Rotator

/-- rotator.py line 15: characters excluded from generated auth
tokens. -/
def EXCLUDE_CHARACTERS : String := "\"%\x27()*+,./:;=?@[\\]_\x60\x7b|\x7d~"

/-- rotator.py line 284: fields a rotation Connection Record must
contain. -/
def required_fields : List String := ["_metadata", "", "ssl", "password"]

/-- The first entry of `fields` that `j` lacks, if any (order of the
`for` loop in `_get_secret_dict`). -/
def firstMissing (fields : List String) (j : Json) : Option String :=
  fields.find? (fun f => !(j.hasKey f))

/-- rotator.py `_get_secret_dict`: fetch the secret value (by version
id and stage when a truthy token is passed, by stage otherwise), parse
the JSON, and check the required fields, raising `KeyError` naming the
first missing one. -/
def _get_secret_dict (st : Store) (arn : SMArg) (stage : String)
    (token : Option String) : Except Err Json :=
  match (if truthy token then getSecretValue st arn token stage
         else getSecretValue st arn none stage) with
  | .error e => .error e
  | .ok v =>
      match v.secretString with
      | none => .error (.valueError "Secret value is not valid JSON.")
      | some j =>
          match firstMissing required_fields j with
          | some f => .error (.keyError (f ++ " key is missing from secret JSON"))
          | none => .ok j

/-- Keyword parameters of redis-py `Redis.__init__`: the secret dict's
entries whose keys appear here are forwarded as connection arguments. -/
def redisSignatureKeys : List String :=
  ["host", "port", "db", "password", "socket_timeout",
   "socket_connect_timeout", "socket_keepalive", "socket_keepalive_options",
   "connection_pool", "unix_socket_path", "encoding", "encoding_errors",
   "charset", "errors", "decode_responses", "retry_on_timeout", "ssl",
   "ssl_keyfile", "ssl_certfile", "ssl_cert_reqs", "ssl_ca_certs",
   "ssl_check_hostname", "max_connections", "single_connection_client",
   "health_check_interval", "client_name", "username"]

/-- The connection arguments built in `_ping_redis`:
`{key: secret_dict[key] for key in secret_dict if key in signature_keys}`. -/
def connArgs (d : Json) : List (String × Json) :=
  match d with
  | .obj fs => fs.filter (fun kv => kv.1 ∈ redisSignatureKeys)
  | _ => []

/-- Split a character list at its colon, provided it contains exactly
one colon. -/
def breakColon : List Char → Option (List Char × List Char)
  | [] => none
  | c :: cs =>
      if c = ':' then
        if cs.contains ':' then none else some ([], cs)
      else
        match breakColon cs with
        | some hp => some (c :: hp.1, hp.2)
        | none => none

/-- `host, port = conn.split(':', maxsplit=2)`: the two-element
unpacking succeeds exactly when the string contains exactly one colon,
yielding the parts before and after it; otherwise it raises. -/
def splitConn (conn : String) : Option (String × String) :=
  (breakColon conn.data).map (fun hp => (String.mk hp.1, String.mk hp.2))

/-- Ping every connection string in the list (the list comprehension
evaluates a ping for every endpoint; there is no short-circuit),
collecting the boolean results and one `ping` effect per endpoint.
A malformed entry raises out of the comprehension. -/
def pingAll (w : World) (args : List (String × Json)) :
    List Json → Except Err (List Bool) × List Effect
  | [] => (.ok [], [])
  | c :: rest =>
      match c with
      | .str conn =>
          match splitConn conn with
          | none => (.error (.valueError "not enough values to unpack"), [])
          | some hp =>
              let b := w.ping hp.1 hp.2 args
              match pingAll w args rest with
              | (.ok bs, tr) => (.ok (b :: bs), .ping conn :: tr)
              | (.error e, tr) => (.error e, .ping conn :: tr)
      | _ => (.error .typeError, [])

/-- rotator.py `_ping_redis`: build the connection arguments, ping every
endpoint listed under the `""` key, and return the conjunction of the
results (`all(...)`). -/
def _ping_redis (w : World) (d : Json) : Except Err Bool × List Effect :=
  match d.index "" with
  | .error e => (.error e, [])
  | .ok (.arr conns) =>
      match pingAll w (connArgs d) conns with
      | (.ok bs, tr) => (.ok (bs.all id), tr)
      | (.error e, tr) => (.error e, tr)
  | .ok _ => (.error .typeError, [])

/-- rotator.py `create_secret`: require the `AWSCURRENT` record, then
look for `AWSPENDING` at the token; when that lookup fails with
"version not found" (and only then), generate a fresh password and put
a copy of the current record with the new password as a version staged
`AWSPENDING` at the token. -/
def create_secret (w : World) (st : Store) (arn token : String) :
    Except Err Unit × List Effect :=
  match _get_secret_dict st (.str arn) "AWSCURRENT" none with
  | .error e => (.error e, [])
  | .ok current_dict =>
      match _get_secret_dict st (.str arn) "AWSPENDING" (some token) with
      | .ok _ => (.ok (), [])
      | .error .resourceNotFound =>
          let auth_token := w.genPassword 64 EXCLUDE_CHARACTERS
          let new_dict := current_dict.setKey "password" (.str auth_token)
          (.ok (), [.getRandomPassword 64 EXCLUDE_CHARACTERS,
                    .putSecretValue arn (some token) new_dict ["AWSPENDING"]])
      | .error e => (.error e, [])

/-- The status-poll loop at the end of `set_secret`: the source
re-describes the replication group until `AuthTokenStatus` leaves
`PendingModifiedValues`; the world says how many polls that takes. -/
def poll_auth_token (rgid : Json) : Nat → List Effect
  | 0 => []
  | n + 1 => .describeReplicationGroups rgid :: poll_auth_token rgid n

/-- rotator.py `set_secret`: probe `AWSPENDING`; on success return.
Otherwise probe `AWSCURRENT`, and if that fails probe `AWSPREVIOUS`
(a ResourceNotFound when fetching `AWSPREVIOUS` counts as a failed
probe).  If no credential authenticates, raise; otherwise issue the
modify-replication-group call with the pending password and the ROTATE
strategy, then poll until applied. -/
def set_secret (w : World) (st : Store) (arn token : String) :
    Except Err Unit × List Effect :=
  match _get_secret_dict st (.str arn) "AWSPENDING" (some token) with
  | .error e => (.error e, [])
  | .ok pending_dict =>
      match _ping_redis w pending_dict with
      | (.error e, tr) => (.error e, tr)
      | (.ok true, tr) => (.ok (), tr)
      | (.ok false, tr) =>
          match _get_secret_dict st (.str arn) "AWSCURRENT" none with
          | .error e => (.error e, tr)
          | .ok current_dict =>
              match _ping_redis w current_dict with
              | (.error e, tr2) => (.error e, tr ++ tr2)
              | (.ok pong, tr2) =>
                  let afterPrev : Except Err Bool × List Effect :=
                    if pong then (.ok true, [])
                    else
                      match _get_secret_dict st (.str arn) "AWSPREVIOUS" none with
                      | .error .resourceNotFound => (.ok false, [])
                      | .error e => (.error e, [])
                      | .ok previous_dict => _ping_redis w previous_dict
                  match afterPrev with
                  | (.error e, tr3) => (.error e, tr ++ tr2 ++ tr3)
                  | (.ok false, tr3) =>
                      (.error (.valueError ("set_secret: Unable to connect to redis with previous, current, or pending secret of secret arn " ++ arn ++ "!")),
                       tr ++ tr2 ++ tr3)
                  | (.ok true, tr3) =>
                      match pending_dict.index "_metadata" with
                      | .error e => (.error e, tr ++ tr2 ++ tr3)
                      | .ok md =>
                          match md.index "id" with
                          | .error e => (.error e, tr ++ tr2 ++ tr3)
                          | .ok rgid =>
                              match pending_dict.index "password" with
                              | .error e => (.error e, tr ++ tr2 ++ tr3)
                              | .ok pw =>
                                  (.ok (),
                                   tr ++ tr2 ++ tr3 ++
                                   [.modifyReplicationGroup rgid pw "ROTATE"] ++
                                   (if w.modifyPendingInitially then
                                      poll_auth_token rgid w.pollsNeeded
                                    else []))

/-- rotator.py `test_secret`: fetch `AWSPENDING` at the token and probe
it; a failed probe raises, a successful one returns. -/
def test_secret (w : World) (st : Store) (arn token : String) :
    Except Err Unit × List Effect :=
  match _get_secret_dict st (.str arn) "AWSPENDING" (some token) with
  | .error e => (.error e, [])
  | .ok d =>
      match _ping_redis w d with
      | (.error e, tr) => (.error e, tr)
      | (.ok true, tr) => (.ok (), tr)
      | (.ok false, tr) =>
          (.error (.valueError ("test_secret: Unable to ping redis with pending secret of secret ARN " ++ arn ++ ".")),
           tr)

/-- rotator.py `finish_secret`: find the first version labelled
`AWSCURRENT`; when it is the token, return; otherwise (or when no
version holds the label) issue the single stage-move call putting
`AWSCURRENT` on the token and removing it from the old holder. -/
def finish_secret (st : Store) (arn token : String) :
    Except Err Unit × List Effect :=
  match st.findSecret arn with
  | none => (.error .resourceNotFound, [])
  | some sd =>
      match sd.versions.find? (fun v => "AWSCURRENT" ∈ v.stages) with
      | some v =>
          if v.id = token then (.ok (), [])
          else (.ok (), [.updateSecretVersionStage arn "AWSCURRENT" token (some v.id)])
      | none => (.ok (), [.updateSecretVersionStage arn "AWSCURRENT" token none])

/-- rotator.py `handle`: describe the secret, check the rotation flag,
check the token appears in the stage map, short-circuit when it is
already `AWSCURRENT`, require `AWSPENDING`, then dispatch on the step
name. -/
def handle (w : World) (st : Store) (arn token step : String) :
    Except Err Unit × List Effect :=
  match st.findSecret arn with
  | none => (.error .resourceNotFound, [])
  | some sd =>
      if sd.rotationEnabled = some false then
        (.error (.valueError ("Secret " ++ arn ++ " is not enabled for rotation.")), [])
      else
        match sd.versions.find? (fun v => v.id = token) with
        | none =>
            (.error (.valueError ("Secret version " ++ token ++ " has no stage for rotation of secret " ++ arn ++ ".")), [])
        | some v =>
            if "AWSCURRENT" ∈ v.stages then (.ok (), [])
            else if "AWSPENDING" ∉ v.stages then
              (.error (.valueError ("Secret version " ++ token ++ " is not set as AWSPENDING for rotation of secret " ++ arn ++ ".")), [])
            else if step = "createSecret" then create_secret w st arn token
            else if step = "setSecret" then set_secret w st arn token
            else if step = "testSecret" then test_secret w st arn token
            else if step = "finishSecret" then finish_secret st arn token
            else
              (.error (.valueError ("handle: Invalid step parameter " ++ step ++ " for secret " ++ arn ++ ".")), [])

end Rotator

/-- The store's semantics of `update_secret_version_stage` (the
stage-move contract the rotator relies on): in one atomic operation the
stage is attached to the version named `moveTo` and removed from the
version named `removeFrom`, when one is named. -/
def SecretData.moveStage (sd : SecretData) (stage moveTo : String)
    (removeFrom : Option String) : SecretData :=
  { sd with
    versions := sd.versions.map (fun v =>
      if v.id = moveTo then
        { v with stages := if stage ∈ v.stages then v.stages else stage :: v.stages }
      else if removeFrom = some v.id then
        { v with stages := v.stages.filter (fun s => s ≠ stage) }
      else v) }

/-- Store invariant: at most one version of a secret holds the
`AWSCURRENT` label (phrased on version ids). -/
def AtMostOneCurrent (sd : SecretData) : Prop :=
  ∀ v ∈ sd.versions, ∀ u ∈ sd.versions,
    "AWSCURRENT" ∈ v.stages → "AWSCURRENT" ∈ u.stages → v.id = u.id

instance (sd : SecretData) : Decidable (AtMostOneCurrent sd) := by
  unfold AtMostOneCurrent
  infer_instance

namespace Attacher

/-- attacher.py line 10. -/
def RESOURCE_TYPE : String := "AWS::ElastiCache::ReplicationGroup"

/-- attacher.py `_get_secret_dict`: same fetch as the rotator's helper
but with no required-field validation. -/
def _get_secret_dict (st : Store) (arn : SMArg) (stage : String)
    (token : Option String) : Except Err Json :=
  match (if truthy token then getSecretValue st arn token stage
         else getSecretValue st arn none stage) with
  | .error e => .error e
  | .ok v =>
      match v.secretString with
      | none => .error (.valueError "Secret value is not valid JSON.")
      | some j => .ok j

/-- attacher.py `create_update`: validate the target type, fetch the
current record — the source passes the store client object as the first
positional argument of `_get_secret_dict(arn, stage, token)`, so the
call is made with `arn` = the client, `stage` = the secret id and
`token` = the string AWSCURRENT — then describe the replication group,
merge the connection information into the record, and put it back
staged `AWSCURRENT`. -/
def create_update (w : World) (st : Store)
    (secret_id target_id target_type : String) :
    Except Err Unit × List Effect :=
  if target_type ≠ RESOURCE_TYPE then
    (.error (.valueError ("The specified target type is invalid, it must be \"" ++ RESOURCE_TYPE ++ "\".")), [])
  else
    match _get_secret_dict st SMArg.client secret_id (some "AWSCURRENT") with
    | .error e => (.error e, [])
    | .ok current_dict =>
        match w.replicationGroup target_id with
        | none =>
            (.error .clusterNotFound, [.describeReplicationGroups (.str target_id)])
        | some rg =>
            let end_points := rg.nodeGroupPrimaryEndpoints
            let d1 := current_dict.setKey "_metadata" (.obj [("id", .str target_id)])
            let d2 := d1.setKey ""
              (.arr (end_points.map (fun ep => .str (ep.1 ++ ":" ++ toString ep.2))))
            let d3 := d2.setKey "ssl" (.bool rg.transitEncryptionEnabled)
            (.ok (), [.describeReplicationGroups (.str target_id),
                      .putSecretValue secret_id none d3 ["AWSCURRENT"]])

end Attacher

/-! ## Helper lemmas -/

theorem pingAll_effects_ping (w : World) (args : List (String × Json)) :
    ∀ conns : List Json, ∀ e ∈ (Rotator.pingAll w args conns).2, e.isPing = true := by
  intro conns
  induction conns with
  | nil => intro e he; simp [Rotator.pingAll] at he
  | cons c rest ih =>
      intro e he
      unfold Rotator.pingAll at he
      cases c with
      | str conn =>
          cases hs : Rotator.splitConn conn with
          | none => simp [hs] at he
          | some hp =>
              simp only [hs] at he
              cases hrec : Rotator.pingAll w args rest with
              | mk r tr =>
                  cases r with
                  | ok bs =>
                      simp [hrec] at he
                      rcases he with he | he
                      · subst he; rfl
                      · exact ih e (by rw [hrec]; exact he)
                  | error e2 =>
                      simp [hrec] at he
                      rcases he with he | he
                      · subst he; rfl
                      · exact ih e (by rw [hrec]; exact he)
      | bool b => simp at he
      | num n => simp at he
      | null => simp at he
      | arr xs => simp at he
      | obj fs => simp at he

theorem ping_redis_effects_ping (w : World) (d : Json) :
    ∀ e ∈ (Rotator._ping_redis w d).2, e.isPing = true := by
  intro e he
  unfold Rotator._ping_redis at he
  cases hi : d.index "" with
  | error e2 => simp [hi] at he
  | ok j =>
      cases j with
      | arr conns =>
          simp only [hi] at he
          cases hrec : Rotator.pingAll w (Rotator.connArgs d) conns with
          | mk r tr =>
              cases r with
              | ok bs =>
                  simp [hrec] at he
                  exact pingAll_effects_ping w _ conns e (by rw [hrec]; exact he)
              | error e2 =>
                  simp [hrec] at he
                  exact pingAll_effects_ping w _ conns e (by rw [hrec]; exact he)
      | str s => simp [hi] at he
      | bool b => simp [hi] at he
      | num n => simp [hi] at he
      | null => simp [hi] at he
      | obj fs => simp [hi] at he

theorem modifyCalls_of_all_ping {tr : List Effect}
    (h : ∀ e ∈ tr, e.isPing = true) : modifyCalls tr = [] := by
  unfold modifyCalls
  rw [List.filter_eq_nil_iff]
  intro e he
  have := h e he
  cases e <;> simp_all [Effect.isPing, Effect.isModify]

theorem ping_redis_no_modify (w : World) (d : Json) :
    modifyCalls (Rotator._ping_redis w d).2 = [] :=
  modifyCalls_of_all_ping (ping_redis_effects_ping w d)

theorem storeMutations_of_all_ping {tr : List Effect}
    (h : ∀ e ∈ tr, e.isPing = true) : storeMutations tr = [] := by
  unfold storeMutations
  rw [List.filter_eq_nil_iff]
  intro e he
  have := h e he
  cases e <;> simp_all [Effect.isPing]

theorem find?_map_replace (fs : List (String × Json)) (k : String) (v : Json)
    (h : fs.any (fun kv => kv.1 = k) = true) :
    (fs.map (fun kv => if kv.1 = k then (k, v) else kv)).find?
      (fun kv => kv.1 = k) = some (k, v) := by
  induction fs with
  | nil => simp at h
  | cons kv rest ih =>
      by_cases hk : kv.1 = k
      · simp [hk]
      · simp only [List.any_cons, Bool.or_eq_true] at h
        rcases h with h | h
        · simp [hk] at h
        · simp [hk, ih h]

theorem find?_append_fresh (fs : List (String × Json)) (k : String) (v : Json)
    (h : fs.any (fun kv => kv.1 = k) = false) :
    ((fs ++ [(k, v)]).find? (fun kv => kv.1 = k)) = some (k, v) := by
  induction fs with
  | nil => simp
  | cons kv rest ih =>
      simp only [List.any_cons, Bool.or_eq_false_iff] at h
      have hk : ¬(kv.1 = k) := by simpa using h.1
      simp [hk, ih h.2]

/-- After `d[k] = v` on an object, looking up `k` yields `v`. -/
theorem index_setKey_self (fs : List (String × Json)) (k : String) (v : Json) :
    ((Json.obj fs).setKey k v).index k = .ok v := by
  unfold Json.setKey
  by_cases h : fs.any (fun kv => kv.1 = k) = true
  · simp only [h, if_true, Json.index]
    rw [find?_map_replace fs k v h]
  · simp only [Bool.not_eq_true] at h
    simp only [h, Bool.false_eq_true, if_false, Json.index]
    rw [find?_append_fresh fs k v h]

/-- A record accepted by the rotator's `_get_secret_dict` has every
required field. -/
theorem get_secret_dict_ok_required (st : Store) (a : SMArg) (stage : String)
    (token : Option String) (j : Json)
    (h : Rotator._get_secret_dict st a stage token = .ok j) :
    ∀ f ∈ Rotator.required_fields, j.hasKey f = true := by
  unfold Rotator._get_secret_dict at h
  split at h
  · simp at h
  · split at h
    · simp at h
    · split at h
      · simp at h
      · rename_i j0 hm
        simp only [Except.ok.injEq] at h
        subst h
        intro f hf
        have := List.find?_eq_none.mp hm f hf
        simpa using this

/-- A JSON value with a key is an object. -/
theorem hasKey_obj (j : Json) (f : String) (h : j.hasKey f = true) :
    ∃ fs, j = .obj fs := by
  cases j with
  | obj fs => exact ⟨fs, rfl⟩
  | str s => simp [Json.hasKey] at h
  | bool b => simp [Json.hasKey] at h
  | num n => simp [Json.hasKey] at h
  | null => simp [Json.hasKey] at h
  | arr xs => simp [Json.hasKey] at h

/-- A record accepted by the rotator's `_get_secret_dict` is a JSON
object (a non-object has no keys, so the required-field check would
have rejected it). -/
theorem get_secret_dict_ok_obj (st : Store) (a : SMArg) (stage : String)
    (token : Option String) (j : Json)
    (h : Rotator._get_secret_dict st a stage token = .ok j) :
    ∃ fs, j = .obj fs :=
  hasKey_obj j "_metadata"
    (get_secret_dict_ok_required st a stage token j h "_metadata"
      (by simp [Rotator.required_fields]))

/-! ## Concrete fixtures for witnesses -/

/-- A world in which every ping succeeds. -/
def pingTrueWorld : World :=
  { genPassword := fun n _ => String.mk (List.replicate n 'a')
    ping := fun _ _ _ => true
    replicationGroup := fun _ => some ⟨[("h", 6379)], true⟩
    modifyPendingInitially := false
    pollsNeeded := 0 }

/-- A world in which every ping fails. -/
def pingFalseWorld : World :=
  { pingTrueWorld with ping := fun _ _ _ => false }

/-- A complete Connection Record. -/
def rec0 : Json :=
  .obj [("_metadata", .obj [("id", .str "rg-1")]),
        ("", .arr [.str "h:6379"]),
        ("ssl", .bool true),
        ("password", .str "oldpw")]

/-- A complete Connection Record with a different password. -/
def rec1 : Json :=
  .obj [("_metadata", .obj [("id", .str "rg-1")]),
        ("", .arr [.str "h:6379"]),
        ("ssl", .bool true),
        ("password", .str "newpw")]

/-- A secret with version `v1` labelled `AWSCURRENT` (payload `rec0`)
and version `v2` labelled `AWSPENDING` (payload `rec1`). -/
def store0Data : SecretData :=
  ⟨some true,
   [⟨"v1", ["AWSCURRENT"], some rec0⟩,
    ⟨"v2", ["AWSPENDING"], some rec1⟩]⟩

/-- A store with the one secret `store0Data`. -/
def store0 : Store := ⟨[("sec", store0Data)]⟩

/-- `store0` with rotation administratively disabled. -/
def store0disabled : Store :=
  ⟨[("sec", ⟨some false,
      [⟨"v1", ["AWSCURRENT"], some rec0⟩,
       ⟨"v2", ["AWSPENDING"], some rec1⟩]⟩)]⟩

/-! ## Claims -/

/-- C6: whenever rotation is administratively disabled for the secret,
`handle` fails with the configuration error and performs no side
effect, for every step name and every token. -/
theorem handle_rotation_disabled_no_step
    (w : World) (st : Store) (arn token step : String) (sd : SecretData)
    (hfind : st.findSecret arn = some sd)
    (hdis : sd.rotationEnabled = some false) :
    Rotator.handle w st arn token step =
      (.error (.valueError ("Secret " ++ arn ++ " is not enabled for rotation.")), []) := by
  unfold Rotator.handle
  rw [hfind]
  simp [hdis]

/-- Witness for C6 at a concrete disabled store. -/
theorem handle_rotation_disabled_no_step_witness :
    Rotator.handle pingTrueWorld store0disabled "sec" "v2" "createSecret" =
      (.error (.valueError ("Secret " ++ "sec" ++ " is not enabled for rotation.")), []) :=
  handle_rotation_disabled_no_step pingTrueWorld store0disabled "sec" "v2"
    "createSecret" _ rfl rfl

/-- C5: when the supplied token is already labelled `AWSCURRENT`, any
rotation-step invocation returns success with an empty effect trace
(no step body runs, no store mutation, no cluster call), and in
particular a direct `finish_secret` call issues no store mutation. -/
theorem handle_already_current_no_effect
    (w : World) (st : Store) (arn token step : String) (sd : SecretData) (v : Version)
    (hfind : st.findSecret arn = some sd)
    (hdis : sd.rotationEnabled ≠ some false)
    (hv : sd.versions.find? (fun u => u.id = token) = some v)
    (hcur : "AWSCURRENT" ∈ v.stages)
    (hone : AtMostOneCurrent sd) :
    Rotator.handle w st arn token step = (.ok (), []) ∧
    Rotator.finish_secret st arn token = (.ok (), []) := by
  constructor
  · unfold Rotator.handle
    rw [hfind]
    simp [hdis, hv, hcur]
  · unfold Rotator.finish_secret
    rw [hfind]
    have hvmem : v ∈ sd.versions := List.mem_of_find?_eq_some hv
    have hvid : v.id = token := by
      have := List.find?_some hv
      simpa using this
    have hsome : (sd.versions.find? (fun u => decide ("AWSCURRENT" ∈ u.stages))).isSome := by
      rw [List.find?_isSome]
      exact ⟨v, hvmem, by simpa using hcur⟩
    cases hu : sd.versions.find? (fun u => decide ("AWSCURRENT" ∈ u.stages)) with
    | none => rw [hu] at hsome; simp at hsome
    | some u =>
        have humem : u ∈ sd.versions := List.mem_of_find?_eq_some hu
        have hucur : "AWSCURRENT" ∈ u.stages := by
          have := List.find?_some hu
          simpa using this
        have huid : u.id = token := by
          rw [← hvid]
          exact (hone v hvmem u humem hcur hucur).symm
        simp [hu, huid]

/-- Witness for C5 at a concrete store where the token is already
current. -/
theorem handle_already_current_no_effect_witness :
    Rotator.handle pingTrueWorld store0 "sec" "v1" "finishSecret" = (.ok (), []) ∧
    Rotator.finish_secret store0 "sec" "v1" = (.ok (), []) :=
  handle_already_current_no_effect pingTrueWorld store0 "sec" "v1" "finishSecret"
    _ _ rfl (by decide) rfl (by decide) (by decide)

/-- C8: `test_secret` fetches the `AWSPENDING` record at the token and
probes it; when the cluster rejects the pending credential it raises a
fatal error, and when the probe succeeds it returns normally having
issued no store mutation and no cluster modification (only probes). -/
theorem test_secret_fatal_or_pass
    (w : World) (st : Store) (arn token : String) (d : Json)
    (hd : Rotator._get_secret_dict st (.str arn) "AWSPENDING" (some token) = .ok d) :
    (∀ tr, Rotator._ping_redis w d = (.ok false, tr) →
      Rotator.test_secret w st arn token =
        (.error (.valueError ("test_secret: Unable to ping redis with pending secret of secret ARN " ++ arn ++ ".")), tr)) ∧
    (∀ tr, Rotator._ping_redis w d = (.ok true, tr) →
      Rotator.test_secret w st arn token = (.ok (), tr) ∧
      storeMutations tr = [] ∧ modifyCalls tr = []) := by
  constructor
  · intro tr hping
    simp [Rotator.test_secret, hd, hping]
  · intro tr hping
    have hall : ∀ e ∈ tr, e.isPing = true := by
      intro e he
      exact ping_redis_effects_ping w d e (by rw [hping]; exact he)
    exact ⟨by simp [Rotator.test_secret, hd, hping],
           storeMutations_of_all_ping hall, modifyCalls_of_all_ping hall⟩

/-- Witness for C8: in a world where the cluster rejects every
credential, `test_secret` raises. -/
theorem test_secret_fatal_or_pass_witness :
    Rotator.test_secret pingFalseWorld store0 "sec" "v2" =
      (.error (.valueError ("test_secret: Unable to ping redis with pending secret of secret ARN " ++ "sec" ++ ".")),
       [.ping "h:6379"]) :=
  (test_secret_fatal_or_pass pingFalseWorld store0 "sec" "v2" rec1 rfl).1
    [.ping "h:6379"] rfl

/-- C3: `create_secret` first requires the `AWSCURRENT` record; when a
`AWSPENDING` version already exists at the token it performs no effect
at all (no generation, no write); when the pending lookup fails with
version-not-found it generates a credential and puts exactly one new
version staged `AWSPENDING` at the token whose payload is the current
record with only the password replaced; any other lookup failure
propagates with no effect. -/
theorem create_secret_cases
    (w : World) (st : Store) (arn token : String) (cur : Json)
    (hcur : Rotator._get_secret_dict st (.str arn) "AWSCURRENT" none = .ok cur) :
    (∀ d, Rotator._get_secret_dict st (.str arn) "AWSPENDING" (some token) = .ok d →
      Rotator.create_secret w st arn token = (.ok (), [])) ∧
    (Rotator._get_secret_dict st (.str arn) "AWSPENDING" (some token) = .error .resourceNotFound →
      Rotator.create_secret w st arn token =
        (.ok (), [.getRandomPassword 64 Rotator.EXCLUDE_CHARACTERS,
                  .putSecretValue arn (some token)
                    (cur.setKey "password" (.str (w.genPassword 64 Rotator.EXCLUDE_CHARACTERS)))
                    ["AWSPENDING"]])) ∧
    (∀ e, Rotator._get_secret_dict st (.str arn) "AWSPENDING" (some token) = .error e →
      e ≠ .resourceNotFound →
      Rotator.create_secret w st arn token = (.error e, [])) := by
  refine ⟨?_, ?_, ?_⟩
  · intro d hp
    unfold Rotator.create_secret
    rw [hcur, hp]
  · intro hp
    unfold Rotator.create_secret
    rw [hcur, hp]
  · intro e hp hne
    unfold Rotator.create_secret
    rw [hcur, hp]
    cases e <;> simp_all

/-- Witness for C3: with a pending version already present at the
token, `create_secret` is a no-op. -/
theorem create_secret_cases_witness :
    Rotator.create_secret pingTrueWorld store0 "sec" "v2" = (.ok (), []) :=
  (create_secret_cases pingTrueWorld store0 "sec" "v2" rec0 rfl).1 rec1 rfl

/-- A store like `store0` but with no pending version, so that the
pending lookup at token `v2` fails with version-not-found. -/
def storeNoPending : Store :=
  ⟨[("sec", ⟨some true, [⟨"v1", ["AWSCURRENT"], some rec0⟩]⟩)]⟩

/-- What a successful `pingAll` run guarantees: an effect trace with a
ping for every endpoint, and — when the conjunction of the results is
true — a successful ping of every endpoint. -/
theorem pingAll_ok_spec (w : World) (args : List (String × Json)) :
    ∀ conns bs tr, Rotator.pingAll w args conns = (.ok bs, tr) →
      (∀ c ∈ conns, ∃ s, c = Json.str s ∧ Effect.ping s ∈ tr) ∧
      (bs.all id = true → ∀ c ∈ conns, ∃ s hp, c = Json.str s ∧
        Rotator.splitConn s = some hp ∧ w.ping hp.1 hp.2 args = true) := by
  intro conns
  induction conns with
  | nil =>
      intro bs tr h
      constructor
      · intro c hc; simp at hc
      · intro _ c hc; simp at hc
  | cons c rest ih =>
      intro bs tr h
      unfold Rotator.pingAll at h
      split at h
      · rename_i conn
        split at h
        · simp at h
        · rename_i hp hsplit
          split at h
          · rename_i bs' tr' hrec
            simp only [Prod.mk.injEq, Except.ok.injEq] at h
            obtain ⟨hbs, htr⟩ := h
            subst hbs
            subst htr
            obtain ⟨ih1, ih2⟩ := ih bs' tr' hrec
            constructor
            · intro c hc
              rcases List.mem_cons.mp hc with hc | hc
              · exact ⟨conn, by rw [hc], List.mem_cons_self _ _⟩
              · obtain ⟨s, hcs, hmem⟩ := ih1 c hc
                exact ⟨s, hcs, List.mem_cons_of_mem _ hmem⟩
            · intro hall c hc
              simp only [List.all_cons, Bool.and_eq_true, id] at hall
              rcases List.mem_cons.mp hc with hc | hc
              · exact ⟨conn, hp, by rw [hc], hsplit, hall.1⟩
              · exact ih2 hall.2 c hc
          · simp at h
      · simp at h

/-- Unfolding `_ping_redis` once the endpoint list is known. -/
theorem ping_redis_spec (w : World) (d : Json) (conns : List Json)
    (hep : d.index "" = .ok (.arr conns)) :
    Rotator._ping_redis w d =
      (match Rotator.pingAll w (Rotator.connArgs d) conns with
       | (.ok bs, tr) => (.ok (bs.all id), tr)
       | (.error e, tr) => (.error e, tr)) := by
  unfold Rotator._ping_redis
  rw [hep]

/-- C10: `_ping_redis` pings each endpoint of the record's endpoint
list and reports success only if every endpoint responds; an empty
endpoint list therefore yields vacuous success, and `test_secret` and
the `set_secret` short-circuit then treat the credential as live
without contacting any cluster node (empty effect trace). -/
theorem ping_redis_all_endpoints
    (w : World) (st : Store) (arn token : String) (d : Json) (conns : List Json)
    (hep : d.index "" = .ok (.arr conns)) :
    (∀ tr, Rotator._ping_redis w d = (.ok true, tr) →
      ∀ c ∈ conns, ∃ s hp, c = Json.str s ∧ Rotator.splitConn s = some hp ∧
        w.ping hp.1 hp.2 (Rotator.connArgs d) = true) ∧
    (∀ b tr, Rotator._ping_redis w d = (.ok b, tr) →
      ∀ c ∈ conns, ∃ s, c = Json.str s ∧ Effect.ping s ∈ tr) ∧
    (conns = [] → Rotator._ping_redis w d = (.ok true, [])) ∧
    (conns = [] →
      Rotator._get_secret_dict st (.str arn) "AWSPENDING" (some token) = .ok d →
      Rotator.test_secret w st arn token = (.ok (), []) ∧
      Rotator.set_secret w st arn token = (.ok (), [])) := by
  have hempty : conns = [] → Rotator._ping_redis w d = (.ok true, []) := by
    intro hc
    subst hc
    rw [ping_redis_spec w d [] hep]
    rfl
  refine ⟨?_, ?_, hempty, ?_⟩
  · intro tr h
    rw [ping_redis_spec w d conns hep] at h
    cases hpa : Rotator.pingAll w (Rotator.connArgs d) conns with
    | mk r tr' =>
        cases r with
        | ok bs =>
            rw [hpa] at h
            simp only [Prod.mk.injEq, Except.ok.injEq] at h
            exact (pingAll_ok_spec w _ conns bs tr' hpa).2 h.1
        | error e => rw [hpa] at h; simp at h
  · intro b tr h
    rw [ping_redis_spec w d conns hep] at h
    cases hpa : Rotator.pingAll w (Rotator.connArgs d) conns with
    | mk r tr' =>
        cases r with
        | ok bs =>
            rw [hpa] at h
            simp only [Prod.mk.injEq, Except.ok.injEq] at h
            rw [← h.2]
            exact (pingAll_ok_spec w _ conns bs tr' hpa).1
        | error e => rw [hpa] at h; simp at h
  · intro hc hd
    have hping := hempty hc
    constructor
    · simp [Rotator.test_secret, hd, hping]
    · simp [Rotator.set_secret, hd, hping]

theorem modifyCalls_append (a b : List Effect) :
    modifyCalls (a ++ b) = modifyCalls a ++ modifyCalls b := by
  simp [modifyCalls, List.filter_append]

theorem modifyCalls_cons_modify (rgid pw : Json) (s : String) (rest : List Effect) :
    modifyCalls (.modifyReplicationGroup rgid pw s :: rest) =
      .modifyReplicationGroup rgid pw s :: modifyCalls rest := by
  simp [modifyCalls, List.filter, Effect.isModify]

theorem poll_no_modify (rgid : Json) :
    ∀ n, modifyCalls (Rotator.poll_auth_token rgid n) = [] := by
  intro n
  induction n with
  | zero => rfl
  | succ n ih => simp [Rotator.poll_auth_token, modifyCalls, List.filter, Effect.isModify] at ih ⊢; exact ih

theorem modifyCalls_poll_ite (w : World) (rgid : Json) :
    modifyCalls (if w.modifyPendingInitially then
      Rotator.poll_auth_token rgid w.pollsNeeded else []) = [] := by
  by_cases h : w.modifyPendingInitially
  · rw [if_pos h]
    exact poll_no_modify rgid _
  · rw [if_neg h]
    rfl

/-- The trace of a `_ping_redis` run carries no cluster modification,
whatever its outcome. -/
theorem ping_trace_no_modify (w : World) (d : Json) (r : Except Err Bool)
    (tr : List Effect) (h : Rotator._ping_redis w d = (r, tr)) :
    modifyCalls tr = [] := by
  have htr : tr = (Rotator._ping_redis w d).2 := by rw [h]
  rw [htr]
  exact ping_redis_no_modify w d

/-- C1: `set_secret` probe order and modification discipline.  With the
pending record fetched: (1) if the pending probe succeeds the call
returns at once, its trace holding no cluster modification; (2) if the
pending probe fails but `AWSCURRENT` authenticates, the call succeeds
and issues exactly one modify-auth-token call with the pending password
and the ROTATE strategy; (3) if pending and current fail and the
`AWSPREVIOUS` fetch reports version-not-found, that is treated as a
failed probe and the call fails fatally; (4) if all three probes fail
it fails fatally; (5) if `AWSPREVIOUS` authenticates, again exactly one
modify call with the pending password and ROTATE. -/
theorem set_secret_probe_order
    (w : World) (st : Store) (arn token : String) (d : Json)
    (hpend : Rotator._get_secret_dict st (.str arn) "AWSPENDING" (some token) = .ok d) :
    (∀ tr, Rotator._ping_redis w d = (.ok true, tr) →
      Rotator.set_secret w st arn token = (.ok (), tr) ∧ modifyCalls tr = []) ∧
    (∀ tr c tr2 md rgid pw,
      Rotator._ping_redis w d = (.ok false, tr) →
      Rotator._get_secret_dict st (.str arn) "AWSCURRENT" none = .ok c →
      Rotator._ping_redis w c = (.ok true, tr2) →
      d.index "_metadata" = .ok md →
      md.index "id" = .ok rgid →
      d.index "password" = .ok pw →
      (Rotator.set_secret w st arn token).1 = .ok () ∧
      modifyCalls (Rotator.set_secret w st arn token).2 =
        [.modifyReplicationGroup rgid pw "ROTATE"]) ∧
    (∀ tr c tr2,
      Rotator._ping_redis w d = (.ok false, tr) →
      Rotator._get_secret_dict st (.str arn) "AWSCURRENT" none = .ok c →
      Rotator._ping_redis w c = (.ok false, tr2) →
      Rotator._get_secret_dict st (.str arn) "AWSPREVIOUS" none = .error .resourceNotFound →
      Rotator.set_secret w st arn token =
        (.error (.valueError ("set_secret: Unable to connect to redis with previous, current, or pending secret of secret arn " ++ arn ++ "!")),
         tr ++ tr2)) ∧
    (∀ tr c tr2 p tr3,
      Rotator._ping_redis w d = (.ok false, tr) →
      Rotator._get_secret_dict st (.str arn) "AWSCURRENT" none = .ok c →
      Rotator._ping_redis w c = (.ok false, tr2) →
      Rotator._get_secret_dict st (.str arn) "AWSPREVIOUS" none = .ok p →
      Rotator._ping_redis w p = (.ok false, tr3) →
      Rotator.set_secret w st arn token =
        (.error (.valueError ("set_secret: Unable to connect to redis with previous, current, or pending secret of secret arn " ++ arn ++ "!")),
         tr ++ tr2 ++ tr3)) ∧
    (∀ tr c tr2 p tr3 md rgid pw,
      Rotator._ping_redis w d = (.ok false, tr) →
      Rotator._get_secret_dict st (.str arn) "AWSCURRENT" none = .ok c →
      Rotator._ping_redis w c = (.ok false, tr2) →
      Rotator._get_secret_dict st (.str arn) "AWSPREVIOUS" none = .ok p →
      Rotator._ping_redis w p = (.ok true, tr3) →
      d.index "_metadata" = .ok md →
      md.index "id" = .ok rgid →
      d.index "password" = .ok pw →
      (Rotator.set_secret w st arn token).1 = .ok () ∧
      modifyCalls (Rotator.set_secret w st arn token).2 =
        [.modifyReplicationGroup rgid pw "ROTATE"]) := by
  refine ⟨?_, ?_, ?_, ?_, ?_⟩
  · intro tr hping
    exact ⟨by simp [Rotator.set_secret, hpend, hping],
           ping_trace_no_modify w d _ tr hping⟩
  · intro tr c tr2 md rgid pw hping hcur hping2 hmd hid hpw
    have hres : Rotator.set_secret w st arn token =
        (.ok (), tr ++ (tr2 ++ ([.modifyReplicationGroup rgid pw "ROTATE"] ++
          (if w.modifyPendingInitially then
            Rotator.poll_auth_token rgid w.pollsNeeded else [])))) := by
      simp [Rotator.set_secret, hpend, hping, hcur, hping2, hmd, hid, hpw]
    rw [hres]
    refine ⟨rfl, ?_⟩
    simp only [modifyCalls_append, modifyCalls_cons_modify,
      ping_trace_no_modify w d _ tr hping, ping_trace_no_modify w c _ tr2 hping2,
      modifyCalls_poll_ite w rgid]
    rfl
  · intro tr c tr2 hping hcur hping2 hprev
    simp [Rotator.set_secret, hpend, hping, hcur, hping2, hprev]
  · intro tr c tr2 p tr3 hping hcur hping2 hprev hping3
    simp [Rotator.set_secret, hpend, hping, hcur, hping2, hprev, hping3]
  · intro tr c tr2 p tr3 md rgid pw hping hcur hping2 hprev hping3 hmd hid hpw
    have hres : Rotator.set_secret w st arn token =
        (.ok (), tr ++ (tr2 ++ (tr3 ++ ([.modifyReplicationGroup rgid pw "ROTATE"] ++
          (if w.modifyPendingInitially then
            Rotator.poll_auth_token rgid w.pollsNeeded else []))))) := by
      simp [Rotator.set_secret, hpend, hping, hcur, hping2, hprev, hping3, hmd, hid, hpw]
    rw [hres]
    refine ⟨rfl, ?_⟩
    simp only [modifyCalls_append, modifyCalls_cons_modify,
      ping_trace_no_modify w d _ tr hping, ping_trace_no_modify w c _ tr2 hping2,
      ping_trace_no_modify w p _ tr3 hping3, modifyCalls_poll_ite w rgid]
    rfl

/-- A world in which a node accepts exactly the password `oldpw`
(looked up among the forwarded connection arguments). -/
def pingOldWorld : World :=
  { pingTrueWorld with
    ping := fun _ _ args =>
      match args.find? (fun kv => kv.1 = "password") with
      | some kv =>
          match kv.2 with
          | .str s => s = "oldpw"
          | _ => false
      | none => false }

/-- Witness for C1: pending probe fails, `AWSCURRENT` still
authenticates, and exactly one modify call is issued with the pending
password and the ROTATE strategy. -/
theorem set_secret_probe_order_witness :
    (Rotator.set_secret pingOldWorld store0 "sec" "v2").1 = .ok () ∧
    modifyCalls (Rotator.set_secret pingOldWorld store0 "sec" "v2").2 =
      [.modifyReplicationGroup (.str "rg-1") (.str "newpw") "ROTATE"] :=
  (set_secret_probe_order pingOldWorld store0 "sec" "v2" rec1 rfl).2.1
    [.ping "h:6379"] rec0 [.ping "h:6379"]
    (.obj [("id", .str "rg-1")]) (.str "rg-1") (.str "newpw")
    rfl rfl rfl rfl rfl rfl

/-- The stage move preserves the version ids. -/
theorem moveStage_ids (sd : SecretData) (stage moveTo : String)
    (removeFrom : Option String) :
    (sd.moveStage stage moveTo removeFrom).versions.map (fun v => v.id) =
      sd.versions.map (fun v => v.id) := by
  unfold SecretData.moveStage
  simp only [List.map_map]
  apply List.map_congr_left
  intro v hv
  simp only [Function.comp]
  split
  · rfl
  · split <;> rfl

/-- After moving `AWSCURRENT` to `token` and removing it from the old
holder, a version holds `AWSCURRENT` exactly when its id is `token` —
provided no version of `token`'s id held it before, and every version
that did hold it is the one being removed from. -/
theorem moveStage_current_iff (sd : SecretData) (token : String) (old : Option String)
    (hnotcur : ∀ u ∈ sd.versions, u.id = token → "AWSCURRENT" ∉ u.stages)
    (hother : ∀ u ∈ sd.versions, "AWSCURRENT" ∈ u.stages → old = some u.id) :
    ∀ x ∈ (sd.moveStage "AWSCURRENT" token old).versions,
      ("AWSCURRENT" ∈ x.stages ↔ x.id = token) := by
  intro x hx
  unfold SecretData.moveStage at hx
  simp only [List.mem_map] at hx
  obtain ⟨u, hu, rfl⟩ := hx
  by_cases h1 : u.id = token
  · have hcur := hnotcur u hu h1
    simp [h1, hcur]
  · by_cases h2 : old = some u.id
    · simp [h1, h2, List.mem_filter]
    · simp only [if_neg h1, if_neg h2]
      simp only [h1, iff_false]
      intro hmem
      exact h2 (hother u hu hmem)

/-- C2: when the token is not already `AWSCURRENT`, `finish_secret`
locates the version holding `AWSCURRENT` (tolerating its absence) and
issues exactly one stage-move operation; interpreting that operation
with the store's atomic move semantics, afterwards a version holds
`AWSCURRENT` exactly when it is `token`'s version, a version of id
`token` exists, and the set of version ids is unchanged. -/
theorem finish_secret_promotes_current
    (st : Store) (arn token : String) (sd : SecretData)
    (hfind : st.findSecret arn = some sd)
    (htok : ∃ u ∈ sd.versions, u.id = token)
    (hnotcur : ∀ u ∈ sd.versions, u.id = token → "AWSCURRENT" ∉ u.stages)
    (hone : AtMostOneCurrent sd) :
    ∃ old : Option String,
      Rotator.finish_secret st arn token =
        (.ok (), [.updateSecretVersionStage arn "AWSCURRENT" token old]) ∧
      (sd.moveStage "AWSCURRENT" token old).versions.map (fun v => v.id) =
        sd.versions.map (fun v => v.id) ∧
      (∃ u ∈ (sd.moveStage "AWSCURRENT" token old).versions, u.id = token) ∧
      (∀ x ∈ (sd.moveStage "AWSCURRENT" token old).versions,
        ("AWSCURRENT" ∈ x.stages ↔ x.id = token)) := by
  have hmemtok : ∀ old, ∃ u ∈ (sd.moveStage "AWSCURRENT" token old).versions, u.id = token := by
    intro old
    obtain ⟨u, hu, hid⟩ := htok
    unfold SecretData.moveStage
    simp only [List.mem_map]
    refine ⟨_, ⟨u, hu, rfl⟩, ?_⟩
    rw [if_pos hid]
    exact hid
  cases hf : sd.versions.find? (fun v => decide ("AWSCURRENT" ∈ v.stages)) with
  | some v =>
      have hvmem : v ∈ sd.versions := List.mem_of_find?_eq_some hf
      have hvcur : "AWSCURRENT" ∈ v.stages := by
        have := List.find?_some hf
        simpa using this
      have hvid : ¬(v.id = token) := fun h => hnotcur v hvmem h hvcur
      refine ⟨some v.id, ?_, moveStage_ids sd _ token _, hmemtok _, ?_⟩
      · simp [Rotator.finish_secret, hfind, hf, hvid]
      · apply moveStage_current_iff sd token (some v.id) hnotcur
        intro u hu hucur
        have := hone u hu v hvmem hucur hvcur
        rw [this]
  | none =>
      have hnone : ∀ u ∈ sd.versions, "AWSCURRENT" ∉ u.stages := by
        intro u hu hmem
        have := List.find?_eq_none.mp hf u hu
        simp at this
        exact this hmem
      refine ⟨none, ?_, moveStage_ids sd _ token _, hmemtok _, ?_⟩
      · simp [Rotator.finish_secret, hfind, hf]
      · apply moveStage_current_iff sd token none hnotcur
        intro u hu hucur
        exact absurd hucur (hnone u hu)

/-- Witness for C2 at `store0`: `AWSCURRENT` moves from `v1` to `v2` in
one store operation. -/
theorem finish_secret_promotes_current_witness :
    ∃ old : Option String,
      Rotator.finish_secret store0 "sec" "v2" =
        (.ok (), [.updateSecretVersionStage "sec" "AWSCURRENT" "v2" old]) ∧
      ((store0Data.moveStage "AWSCURRENT" "v2" old).versions.map (fun v => v.id) =
        store0Data.versions.map (fun v => v.id)) ∧
      (∃ u ∈ (store0Data.moveStage "AWSCURRENT" "v2" old).versions, u.id = "v2") ∧
      (∀ x ∈ (store0Data.moveStage "AWSCURRENT" "v2" old).versions,
        ("AWSCURRENT" ∈ x.stages ↔ x.id = "v2")) :=
  finish_secret_promotes_current store0 "sec" "v2" store0Data rfl
    (by decide) (by decide) (by decide)

/-- A Connection Record with an empty endpoint list. -/
def recNoEndpoints : Json :=
  .obj [("_metadata", .obj [("id", .str "rg-1")]),
        ("", .arr []),
        ("ssl", .bool true),
        ("password", .str "pw")]

/-- A store whose pending record has no endpoints. -/
def storeEmptyEp : Store :=
  ⟨[("sec", ⟨some true,
      [⟨"v1", ["AWSCURRENT"], some recNoEndpoints⟩,
       ⟨"v2", ["AWSPENDING"], some recNoEndpoints⟩]⟩)]⟩

/-- Witness for C10: even in a world where every ping would fail, an
empty endpoint list makes the probe succeed vacuously, so `test_secret`
and `set_secret` return with no external contact at all. -/
theorem ping_redis_all_endpoints_witness :
    Rotator.test_secret pingFalseWorld storeEmptyEp "sec" "v2" = (.ok (), []) ∧
    Rotator.set_secret pingFalseWorld storeEmptyEp "sec" "v2" = (.ok (), []) :=
  (ping_redis_all_endpoints pingFalseWorld storeEmptyEp "sec" "v2"
    recNoEndpoints [] rfl).2.2.2 rfl rfl

/-- A record whose `_metadata` object is empty: it has all four
required top-level keys but no cluster id. -/
def recNoId : Json :=
  .obj [("_metadata", .obj []),
        ("", .arr []),
        ("ssl", .bool true),
        ("password", .str "p")]

/-- A store whose records lack the cluster id inside `_metadata`. -/
def storeNoId : Store :=
  ⟨[("sec", ⟨some true,
      [⟨"v1", ["AWSCURRENT"], some recNoId⟩,
       ⟨"v2", ["AWSPENDING"], some recNoId⟩]⟩)]⟩

/-- C7 counterexample: a Connection Record missing the cluster id (its
metadata object is empty) is NOT rejected by `_get_secret_dict` — the
validation only checks the four top-level keys — and `test_secret`
proceeds with the incomplete record (here even succeeding).  This
refutes the claim that a record missing the cluster id is rejected with
a malformed-record error. -/
theorem get_secret_dict_accepts_missing_cluster_id :
    Rotator._get_secret_dict storeNoId (.str "sec") "AWSPENDING" (some "v2") =
      .ok recNoId ∧
    Rotator.test_secret pingFalseWorld storeNoId "sec" "v2" = (.ok (), []) :=
  ⟨rfl, rfl⟩

/-- C7 amended: a record missing any of the four required top-level
fields — the metadata object, the endpoint-list key, the ssl flag or
the password — is rejected by `_get_secret_dict` with a `KeyError`
naming a missing field, and the record is not returned to the step.
(The cluster id inside the metadata object is not checked at fetch.) -/
theorem get_secret_dict_rejects_missing_field
    (st : Store) (a : SMArg) (stage : String) (token : Option String)
    (v : Version) (j : Json)
    (hv : (if truthy token then getSecretValue st a token stage
           else getSecretValue st a none stage) = .ok v)
    (hs : v.secretString = some j)
    (hmiss : ∃ f ∈ Rotator.required_fields, j.hasKey f = false) :
    ∃ f, f ∈ Rotator.required_fields ∧ j.hasKey f = false ∧
      Rotator._get_secret_dict st a stage token =
        .error (.keyError (f ++ " key is missing from secret JSON")) := by
  obtain ⟨f0, hf0, hk0⟩ := hmiss
  have hsome : (Rotator.required_fields.find? (fun f => !(j.hasKey f))).isSome := by
    rw [List.find?_isSome]
    exact ⟨f0, hf0, by simp [hk0]⟩
  cases hfm : Rotator.required_fields.find? (fun f => !(j.hasKey f)) with
  | none => rw [hfm] at hsome; simp at hsome
  | some f =>
      refine ⟨f, List.mem_of_find?_eq_some hfm, ?_, ?_⟩
      · have := List.find?_some hfm
        simpa using this
      · simp [Rotator._get_secret_dict, hv, hs, Rotator.firstMissing, hfm]

/-- A record with no `ssl` key. -/
def recNoSsl : Json :=
  .obj [("_metadata", .obj [("id", .str "rg-1")]),
        ("", .arr []),
        ("password", .str "p")]

/-- A store whose pending record lacks the `ssl` key. -/
def storeNoSsl : Store :=
  ⟨[("sec", ⟨some true,
      [⟨"v1", ["AWSCURRENT"], some rec0⟩,
       ⟨"v2", ["AWSPENDING"], some recNoSsl⟩]⟩)]⟩

/-- Witness for the amended C7: the fetch of a record lacking `ssl` is
rejected with a `KeyError` naming a missing required field. -/
theorem get_secret_dict_rejects_missing_field_witness :
    ∃ f, f ∈ Rotator.required_fields ∧ recNoSsl.hasKey f = false ∧
      Rotator._get_secret_dict storeNoSsl (.str "sec") "AWSPENDING" (some "v2") =
        .error (.keyError (f ++ " key is missing from secret JSON")) :=
  get_secret_dict_rejects_missing_field storeNoSsl (.str "sec") "AWSPENDING"
    (some "v2") ⟨"v2", ["AWSPENDING"], some recNoSsl⟩ recNoSsl rfl rfl
    ⟨"ssl", by decide, by decide⟩

/-- C4: the attacher's `create_update` never reads the `AWSCURRENT`
Connection Record of the secret: it passes the store client object as
the first positional argument of `_get_secret_dict(arn, stage, token)`,
shifting the parameters (`arn` = client, `stage` = the secret id,
`token` = the literal string AWSCURRENT), so the resulting
get-secret-value request is invalid and the call fails before any merge
or put — even on a store whose secret has a perfectly valid `AWSCURRENT`
record, as the third conjunct shows the intended fetch would have
succeeded. -/
theorem create_update_client_arg_bug :
    Attacher.create_update pingTrueWorld store0 "sec" "rg-1" Attacher.RESOURCE_TYPE =
      (.error .paramValidation, []) ∧
    Attacher._get_secret_dict store0 SMArg.client "sec" (some "AWSCURRENT") =
      .error .paramValidation ∧
    Attacher._get_secret_dict store0 (.str "sec") "AWSCURRENT" none = .ok rec0 :=
  ⟨rfl, rfl, rfl⟩

/-- C9: the credential generator is invoked with exactly length 64 and
exactly the excluded character set, the committed payload's password is
exactly the generated string, and under the generator's contract that
string is 64 characters long and avoids every excluded character. -/
theorem create_secret_password_constraints
    (w : World) (st : Store) (arn token : String) (cur : Json)
    (hcur : Rotator._get_secret_dict st (.str arn) "AWSCURRENT" none = .ok cur)
    (hpend : Rotator._get_secret_dict st (.str arn) "AWSPENDING" (some token) = .error .resourceNotFound)
    (hlen : (w.genPassword 64 Rotator.EXCLUDE_CHARACTERS).length = 64)
    (hex : ∀ c ∈ (w.genPassword 64 Rotator.EXCLUDE_CHARACTERS).data,
             c ∉ Rotator.EXCLUDE_CHARACTERS.data) :
    ∃ payload,
      Rotator.create_secret w st arn token =
        (.ok (), [.getRandomPassword 64 Rotator.EXCLUDE_CHARACTERS,
                  .putSecretValue arn (some token) payload ["AWSPENDING"]]) ∧
      payload.index "password" =
        .ok (.str (w.genPassword 64 Rotator.EXCLUDE_CHARACTERS)) ∧
      (w.genPassword 64 Rotator.EXCLUDE_CHARACTERS).length = 64 ∧
      ∀ c ∈ (w.genPassword 64 Rotator.EXCLUDE_CHARACTERS).data,
        c ∉ Rotator.EXCLUDE_CHARACTERS.data := by
  obtain ⟨fs, rfl⟩ := get_secret_dict_ok_obj st (.str arn) "AWSCURRENT" none cur hcur
  refine ⟨(Json.obj fs).setKey "password"
    (.str (w.genPassword 64 Rotator.EXCLUDE_CHARACTERS)), ?_, ?_, hlen, hex⟩
  · exact (create_secret_cases w st arn token (Json.obj fs) hcur).2.1 hpend
  · exact index_setKey_self fs "password" _

/-- Witness for C9 with a concrete generator satisfying the contract. -/
theorem create_secret_password_constraints_witness :
    ∃ payload,
      Rotator.create_secret pingTrueWorld storeNoPending "sec" "v2" =
        (.ok (), [.getRandomPassword 64 Rotator.EXCLUDE_CHARACTERS,
                  .putSecretValue "sec" (some "v2") payload ["AWSPENDING"]]) ∧
      payload.index "password" =
        .ok (.str (pingTrueWorld.genPassword 64 Rotator.EXCLUDE_CHARACTERS)) ∧
      (pingTrueWorld.genPassword 64 Rotator.EXCLUDE_CHARACTERS).length = 64 ∧
      ∀ c ∈ (pingTrueWorld.genPassword 64 Rotator.EXCLUDE_CHARACTERS).data,
        c ∉ Rotator.EXCLUDE_CHARACTERS.data :=
  create_secret_password_constraints pingTrueWorld storeNoPending "sec" "v2"
    rec0 rfl rfl (by decide) (by decide)
